import Mathlib

/-!
Shallow embedding of the parking-reservation backend in `application.py`
(Flask + MongoDB).  Timestamps are modelled as integers counting
microseconds since the epoch, matching the microsecond resolution of
Python `datetime` values; `timedelta(minutes=10)` is 600000000 of these
units.  The MongoDB slot and booking collections are modelled as lists of
records; `find_one_and_update` and `update_one` act on the first matching
element of the list (slot ids are unique in the pool, so this coincides
with Mongo's semantics for this program).
-/

namespace SmartParking

/-- `timedelta(minutes=10)` in microseconds, the lease TTL. -/
def LEASE_TTL_US : Int := 600000000

/-- Model of Python `int((d).total_seconds())` where `d` is a `timedelta`
of `dus` microseconds: division by 10^6 truncated toward zero (`int()`
truncates toward zero; `total_seconds()` is exact on this range). -/
def pyTotalSeconds (dus : Int) : Int :=
  if dus < 0 then -((((-dus).toNat) / 1000000 : Nat) : Int)
  else (((dus.toNat) / 1000000 : Nat) : Int)

/-- One document of the `parking_slots` collection.  Fields that may be
absent or `None` in the Mongo document are `Option`s (Mongo's `None`
query value matches both a null and a missing field, and every read in
the source goes through `.get`, which treats them alike). -/
structure Slot where
  slot_id : String
  available : Bool
  reserved_by : Option String
  staff_email : Option String
  department : Option String
  reservation_time : Option Int
  last_updated : Option Int
  hardware_occupied : Bool
  last_sensor_update : Option Int
deriving Repr, DecidableEq

/-- One document of the `bookings` collection, including the internal
Mongo identifier `_id` (modelled as a `Nat`). -/
structure BookingDoc where
  _id : Nat
  staff_id : String
  staff_email : Option String
  department : Option String
  slot_id : String
  reserved_at : Int
  expires_at : Int
deriving Repr, DecidableEq

/-- A booking as returned by `my_bookings`: the stored document under the
projection that removes the internal `_id`. -/
structure Booking where
  staff_id : String
  staff_email : Option String
  department : Option String
  slot_id : String
  reserved_at : Int
  expires_at : Int
deriving Repr, DecidableEq

/-- The `{"_id": 0}` projection applied by `my_bookings`. -/
def bookingView (b : BookingDoc) : Booking :=
  { staff_id := b.staff_id, staff_email := b.staff_email,
    department := b.department, slot_id := b.slot_id,
    reserved_at := b.reserved_at, expires_at := b.expires_at }

/-- A staff user document of the `users` collection, as consulted by the
reservation path (after the `user_type`/`is_active` filter). -/
structure User where
  staff_id : String
  email : String
  department : Option String
deriving Repr, DecidableEq

/-- `init_slots`: the pool created at startup when the store is empty —
five slots `S1`..`S5`, `available: True`, `reserved_by: None`, and no
other fields in the document. -/
def initSlots : List Slot :=
  ["S1", "S2", "S3", "S4", "S5"].map fun i =>
    { slot_id := i, available := true, reserved_by := none,
      staff_email := none, department := none, reservation_time := none,
      last_updated := none, hardware_occupied := false,
      last_sensor_update := none }

/-- The `$set` document of `reserve_slot`'s `find_one_and_update`. -/
def reserveSet (u : User) (now : Int) (s : Slot) : Slot :=
  { s with available := false, reserved_by := some u.staff_id,
           staff_email := some u.email, department := u.department,
           reservation_time := some now, last_updated := some now }

/-- `find_one_and_update({"available": True, "reserved_by": None}, ...)`
with `ReturnDocument.AFTER`: update the first matching slot and return
the post-update document, or return `none` and leave the list unchanged. -/
def findOneAndUpdateAvailable (u : User) (now : Int) :
    List Slot → Option Slot × List Slot
  | [] => (none, [])
  | s :: rest =>
    if s.available = true ∧ s.reserved_by = none then
      (some (reserveSet u now s), reserveSet u now s :: rest)
    else
      let r := findOneAndUpdateAvailable u now rest
      (r.1, s :: r.2)

/-- The body of `reserve_slot`'s 201 (or 404) response, restricted to
the fields the reservation logic computes. -/
structure ReserveResponse where
  success : Bool
  httpStatus : Nat
  slot_id : Option String
  reserved_at : Option Int
  expires_at : Option Int
  duration_minutes : Option Nat
deriving Repr, DecidableEq

/-- `reserve_slot`, after the staff-identity lookup has succeeded and
produced `u`: atomically claim the first free slot; on success append a
booking with `expires_at = now + timedelta(minutes=10)`; on failure
return 404 and touch nothing. -/
def reserve_slot (u : User) (now : Int) (slots : List Slot)
    (bookings : List BookingDoc) :
    ReserveResponse × List Slot × List BookingDoc :=
  match findOneAndUpdateAvailable u now slots with
  | (none, slots') =>
    ({ success := false, httpStatus := 404, slot_id := none,
       reserved_at := none, expires_at := none, duration_minutes := none },
     slots', bookings)
  | (some slot, slots') =>
    let expires_at := now + LEASE_TTL_US
    let doc : BookingDoc :=
      { _id := bookings.length, staff_id := u.staff_id,
        staff_email := some u.email, department := u.department,
        slot_id := slot.slot_id, reserved_at := now,
        expires_at := expires_at }
    ({ success := true, httpStatus := 201, slot_id := some slot.slot_id,
       reserved_at := some now, expires_at := some expires_at,
       duration_minutes := some 10 },
     slots', bookings ++ [doc])

/-- `my_bookings`: filter by `staff_id`, sort by `reserved_at`
descending, limit 20, project away `_id`; the store is read-only here. -/
def my_bookings (staffId : String) (bookings : List BookingDoc) :
    List Booking × List BookingDoc :=
  (((List.insertionSort (fun a b : BookingDoc => b.reserved_at ≤ a.reserved_at)
      (bookings.filter (fun b => b.staff_id = staffId))).take 20).map bookingView,
   bookings)

/-- Python `f"{n:02d}"` for a nonnegative `n`. -/
def pad2 (n : Nat) : String :=
  if n < 10 then "0" ++ toString n else toString n

/-- `f"{minutes:02d}:{seconds:02d}"`. -/
def countdownFrom (m s : Nat) : String := pad2 m ++ ":" ++ pad2 s

/-- The countdown rendering of a remaining whole-second duration, as the
read paths compute it: `minutes = total_seconds // 60`,
`seconds = total_seconds % 60`, zero-padded `MM:SS`. -/
def renderCountdown (remaining : Nat) : String :=
  countdownFrom (remaining / 60) (remaining % 60)

/-- The lease-expiry evaluation shared by both read paths:
`total_seconds = int((reservation_time + 10min - now).total_seconds())`
and the lease counts as active iff `total_seconds > 0`. -/
def leaseActive (t now : Int) : Bool :=
  decide (0 < pyTotalSeconds (t + LEASE_TTL_US - now))

/-- `max(0, ...)` remaining whole seconds of a lease started at `t`. -/
def remainingSeconds (t now : Int) : Nat :=
  (pyTotalSeconds (t + LEASE_TTL_US - now)).toNat

/-- The `$set` document of the auto-release `update_one` issued by both
read paths on an expired slot. -/
def releasedSlot (s : Slot) : Slot :=
  { s with available := true, reserved_by := none, staff_email := none,
           department := none, reservation_time := none }

/-- One entry of the `slots_status` response: the slot document (minus
`_id`) augmented with the computed presentation fields; in the expired
branch the lease keys are deleted from the response dict (`none` here)
while `available` keeps the value read from the store. -/
structure StatusEntry where
  slot_id : String
  available : Bool
  reserved_by : Option String
  staff_email : Option String
  department : Option String
  reservation_time : Option Int
  status : String
  time_left_min : Option Nat
  time_left_sec : Option Nat
  countdown : Option String
  expires_at : Option Int
deriving Repr, DecidableEq

/-- The lazy backfill of `staff_email`/`department` in the RESERVED
branch of `slots_status`: if the slot document has no `staff_email`,
look the reserving user up and copy email and department into the
response dict (the store is not written). -/
def backfillEmailDept (users : List User) (s : Slot) :
    Option String × Option String :=
  match s.staff_email with
  | some e => (some e, s.department)
  | none =>
    match users.find? (fun u => some u.staff_id = s.reserved_by) with
    | some u => (some u.email, u.department)
    | none => (none, s.department)

/-- The per-slot body of the `slots_status` loop.  Returns the response
entry, the slot as it stands in the store afterwards, and whether an
auto-release `update_one` was issued for this slot. -/
def procSlotStatus (users : List User) (now : Int) (s : Slot) :
    StatusEntry × Slot × Bool :=
  match s.reservation_time with
  | some t =>
    let expiry := t + LEASE_TTL_US
    let ts := pyTotalSeconds (expiry - now)
    if 0 < ts then
      let minutes := ts.toNat / 60
      let seconds := ts.toNat % 60
      let bf := backfillEmailDept users s
      ({ slot_id := s.slot_id, available := s.available,
         reserved_by := s.reserved_by, staff_email := bf.1,
         department := bf.2, reservation_time := s.reservation_time,
         status := "RESERVED", time_left_min := some minutes,
         time_left_sec := some seconds,
         countdown := some (countdownFrom minutes seconds),
         expires_at := some expiry },
       s, false)
    else
      ({ slot_id := s.slot_id, available := s.available,
         reserved_by := none, staff_email := none, department := none,
         reservation_time := none, status := "AVAILABLE",
         time_left_min := none, time_left_sec := none, countdown := none,
         expires_at := none },
       releasedSlot s, true)
  | none =>
    ({ slot_id := s.slot_id, available := s.available,
       reserved_by := s.reserved_by, staff_email := s.staff_email,
       department := s.department, reservation_time := none,
       status := "AVAILABLE", time_left_min := none, time_left_sec := none,
       countdown := none, expires_at := none },
     s, false)

/-- Lexicographic order on character codes — Mongo's ascending order on
the ASCII slot-id strings of this program. -/
def charListLeB : List Char → List Char → Bool
  | [], _ => true
  | _ :: _, [] => false
  | a :: as, b :: bs =>
    if a.toNat < b.toNat then true
    else if b.toNat < a.toNat then false
    else charListLeB as bs

/-- The `.sort("slot_id", 1)` applied by both read paths to the fetched
slot documents. -/
def sortBySlotId (slots : List Slot) : List Slot :=
  List.insertionSort
    (fun a b : Slot => charListLeB a.slot_id.data b.slot_id.data = true) slots

/-- `slots_status`: read all slots sorted by id, process each, with the
auto-release writes folded back into the store (slot ids are unique, so
the keyed `update_one`s amount to the per-element replacement). -/
def slots_status (users : List User) (now : Int) (slots : List Slot) :
    List StatusEntry × List Slot :=
  ((sortBySlotId slots).map (fun s => (procSlotStatus users now s).1),
   (sortBySlotId slots).map (fun s => (procSlotStatus users now s).2.1))

/-- One entry of the `reserve-signal` response.  The dict is created
with `slot_id`, `available`, `hardware_occupied` read from the store
document before any branch runs; the RESERVED branch adds the lease and
countdown fields, the other branches only add status/led/buzzer. -/
structure Esp32Entry where
  slot_id : String
  available : Bool
  hardware_occupied : Bool
  status : String
  reserved_by : Option String
  staff_email : Option String
  department : Option String
  time_left_min : Option Nat
  time_left_sec : Option Nat
  countdown : Option String
  led_color : String
  buzzer : Bool
deriving Repr, DecidableEq

/-- The per-slot body of the `esp32_reserve_status` loop, with result
components as in `procSlotStatus`. -/
def procEsp32 (now : Int) (s : Slot) : Esp32Entry × Slot × Bool :=
  match s.reservation_time with
  | some t =>
    let expiry := t + LEASE_TTL_US
    let ts := pyTotalSeconds (expiry - now)
    if 0 < ts then
      let minutes := ts.toNat / 60
      let seconds := ts.toNat % 60
      ({ slot_id := s.slot_id, available := s.available,
         hardware_occupied := s.hardware_occupied, status := "RESERVED",
         reserved_by := s.reserved_by, staff_email := s.staff_email,
         department := s.department, time_left_min := some minutes,
         time_left_sec := some seconds,
         countdown := some (countdownFrom minutes seconds),
         led_color := "GREEN", buzzer := false },
       s, false)
    else
      ({ slot_id := s.slot_id, available := s.available,
         hardware_occupied := s.hardware_occupied, status := "AVAILABLE",
         reserved_by := none, staff_email := none, department := none,
         time_left_min := none, time_left_sec := none, countdown := none,
         led_color := "OFF", buzzer := false },
       releasedSlot s, true)
  | none =>
    ({ slot_id := s.slot_id, available := s.available,
       hardware_occupied := s.hardware_occupied, status := "AVAILABLE",
       reserved_by := none, staff_email := none, department := none,
       time_left_min := none, time_left_sec := none, countdown := none,
       led_color := "OFF", buzzer := false },
     s, false)

/-- `esp32_reserve_status` (`GET /hardware/reserve-signal`). -/
def esp32_reserve_status (now : Int) (slots : List Slot) :
    List Esp32Entry × List Slot :=
  ((sortBySlotId slots).map (fun s => (procEsp32 now s).1),
   (sortBySlotId slots).map (fun s => (procEsp32 now s).2.1))

/-- The `$set` document of `hardware_sensor`'s `update_one`. -/
def sensorSet (occupied : Bool) (now : Int) (s : Slot) : Slot :=
  { s with hardware_occupied := occupied, last_sensor_update := some now }

/-- `update_one({"slot_id": sid}, {"$set": ...})`: update the first slot
with the given id; the returned count is Mongo's `modified_count` (zero
when nothing matched, and also when the update changes no field value). -/
def updateOneSensor (sid : String) (occupied : Bool) (now : Int) :
    List Slot → List Slot × Nat
  | [] => ([], 0)
  | s :: rest =>
    if s.slot_id = sid then
      (sensorSet occupied now s :: rest,
       if sensorSet occupied now s = s then 0 else 1)
    else
      let r := updateOneSensor sid occupied now rest
      (s :: r.1, r.2)

/-- The body of `hardware_sensor`'s JSON response plus its HTTP status. -/
structure SensorResponse where
  success : Bool
  httpStatus : Nat
  updated : Bool
deriving Repr, DecidableEq

/-- `hardware_sensor` (`POST /hardware/sensor-update`): a missing or
empty `slot_id` is rejected with 400; otherwise the sensor fields of the
named slot are overwritten and the endpoint answers 200 with
`"updated": result.modified_count > 0` — it reports success even when no
slot matched. -/
def hardware_sensor (slotId : Option String) (occupied : Bool) (now : Int)
    (slots : List Slot) : SensorResponse × List Slot :=
  match slotId with
  | none =>
    ({ success := false, httpStatus := 400, updated := false }, slots)
  | some sid =>
    if sid = "" then
      ({ success := false, httpStatus := 400, updated := false }, slots)
    else
      let r := updateOneSensor sid occupied now slots
      ({ success := true, httpStatus := 200, updated := decide (0 < r.2) },
       r.1)

/-- The slot-record invariant of the spec: `available == false` iff the
lease fields `reserved_by` and `reservation_time` are both present. -/
def SlotInv (s : Slot) : Prop :=
  s.available = false ↔ (s.reserved_by ≠ none ∧ s.reservation_time ≠ none)

instance (s : Slot) : Decidable (SlotInv s) := by
  unfold SlotInv; infer_instance

/-- A concrete staff user, for witnesses. -/
def demoUser : User :=
  { staff_id := "cse101", email := "a@b.c", department := some "CSE" }

/-! ### Helper lemmas about the allocation update -/

theorem findOneAndUpdateAvailable_no_match (u : User) (now : Int) :
    ∀ slots : List Slot,
      (∀ s ∈ slots, ¬ (s.available = true ∧ s.reserved_by = none)) →
      findOneAndUpdateAvailable u now slots = (none, slots) := by
  intro slots
  induction slots with
  | nil => intro _; rfl
  | cons s rest ih =>
    intro h
    have hs := h s (List.mem_cons_self s rest)
    have hrest := ih (fun x hx => h x (List.mem_cons_of_mem s hx))
    simp [findOneAndUpdateAvailable, if_neg hs, hrest]

theorem findOneAndUpdateAvailable_some (u : User) (now : Int) :
    ∀ slots slots' : List Slot, ∀ slot : Slot,
      findOneAndUpdateAvailable u now slots = (some slot, slots') →
      slot ∈ slots' ∧ ∃ s₀ ∈ slots, slot = reserveSet u now s₀ := by
  intro slots
  induction slots with
  | nil => intro slots' slot h; simp [findOneAndUpdateAvailable] at h
  | cons s rest ih =>
    intro slots' slot h
    by_cases hc : s.available = true ∧ s.reserved_by = none
    · simp [findOneAndUpdateAvailable, if_pos hc] at h
      obtain ⟨h1, h2⟩ := h
      subst h1; subst h2
      exact ⟨List.mem_cons_self _ _, s, List.mem_cons_self s rest, rfl⟩
    · rcases hr : findOneAndUpdateAvailable u now rest with ⟨res, rest'⟩
      simp [findOneAndUpdateAvailable, if_neg hc, hr] at h
      obtain ⟨h1, h2⟩ := h
      subst h1
      obtain ⟨hmem, s₀, hs₀, hset⟩ := ih rest' slot hr
      subst h2
      exact ⟨List.mem_cons_of_mem s hmem,
             s₀, List.mem_cons_of_mem s hs₀, hset⟩

theorem findOneAndUpdateAvailable_mem (u : User) (now : Int) :
    ∀ slots : List Slot, ∀ x ∈ (findOneAndUpdateAvailable u now slots).2,
      x ∈ slots ∨ ∃ s₀ ∈ slots, x = reserveSet u now s₀ := by
  intro slots
  induction slots with
  | nil => intro x hx; simp [findOneAndUpdateAvailable] at hx
  | cons s rest ih =>
    intro x hx
    by_cases hc : s.available = true ∧ s.reserved_by = none
    · simp [findOneAndUpdateAvailable, if_pos hc] at hx
      rcases hx with hx | hx
      · exact Or.inr ⟨s, List.mem_cons_self s rest, hx⟩
      · exact Or.inl (List.mem_cons_of_mem s hx)
    · simp [findOneAndUpdateAvailable, if_neg hc] at hx
      rcases hx with hx | hx
      · exact Or.inl (hx ▸ List.mem_cons_self s rest)
      · rcases ih x hx with h | ⟨s₀, hs₀, hset⟩
        · exact Or.inl (List.mem_cons_of_mem s h)
        · exact Or.inr ⟨s₀, List.mem_cons_of_mem s hs₀, hset⟩

/-! ### Claims -/

/-- C2: when a verified staff identity calls `reserve_slot` and no slot
in the store satisfies `available == true ∧ reserved_by == null`, the
endpoint answers 404 (no slots available), no slot record is modified,
and no booking is appended to the ledger. -/
theorem claim_C2 (u : User) (now : Int) (slots : List Slot)
    (bookings : List BookingDoc)
    (h : ∀ s ∈ slots, ¬ (s.available = true ∧ s.reserved_by = none)) :
    (reserve_slot u now slots bookings).1.success = false ∧
    (reserve_slot u now slots bookings).1.httpStatus = 404 ∧
    (reserve_slot u now slots bookings).2.1 = slots ∧
    (reserve_slot u now slots bookings).2.2 = bookings := by
  have hf := findOneAndUpdateAvailable_no_match u now slots h
  simp [reserve_slot, hf]

theorem claim_C2_witness :
    (∀ s ∈ [reserveSet demoUser 0 (initSlots.get ⟨0, by decide⟩)],
        ¬ (s.available = true ∧ s.reserved_by = none)) ∧
    (reserve_slot demoUser 7 [reserveSet demoUser 0 (initSlots.get ⟨0, by decide⟩)]
        []).1.httpStatus = 404 :=
  ⟨by decide,
   (claim_C2 demoUser 7 [reserveSet demoUser 0 (initSlots.get ⟨0, by decide⟩)]
      [] (by decide)).2.1⟩

/-- C7: every successful allocation appends exactly one booking, whose
`expires_at` equals `reserved_at + LEASE_TTL` (10 minutes) computed at
creation time, and whose `reserved_at` equals the `reservation_time`
written into the claimed slot record. -/
theorem claim_C7 (u : User) (now : Int) (slots : List Slot)
    (bookings : List BookingDoc)
    (h : (reserve_slot u now slots bookings).1.success = true) :
    ∃ d : BookingDoc,
      (reserve_slot u now slots bookings).2.2 = bookings ++ [d] ∧
      d.expires_at = d.reserved_at + LEASE_TTL_US ∧
      d.reserved_at = now ∧
      ∃ slot ∈ (reserve_slot u now slots bookings).2.1,
        slot.slot_id = d.slot_id ∧
        slot.reservation_time = some d.reserved_at := by
  rcases hfind : findOneAndUpdateAvailable u now slots with ⟨res, slots'⟩
  cases res with
  | none => simp [reserve_slot, hfind] at h
  | some slot =>
    obtain ⟨hmem, s₀, hs₀, hset⟩ :=
      findOneAndUpdateAvailable_some u now slots slots' slot hfind
    refine ⟨{ _id := bookings.length, staff_id := u.staff_id,
              staff_email := some u.email, department := u.department,
              slot_id := slot.slot_id, reserved_at := now,
              expires_at := now + LEASE_TTL_US }, ?_, rfl, rfl, ?_⟩
    · simp [reserve_slot, hfind]
    · refine ⟨slot, ?_, rfl, ?_⟩
      · simp [reserve_slot, hfind]; exact hmem
      · subst hset; rfl

theorem updateOneSensor_no_match (sid : String) (occupied : Bool)
    (now : Int) : ∀ slots : List Slot, (∀ s ∈ slots, s.slot_id ≠ sid) →
    updateOneSensor sid occupied now slots = (slots, 0) := by
  intro slots
  induction slots with
  | nil => intro _; rfl
  | cons s rest ih =>
    intro h
    have hs := h s (List.mem_cons_self s rest)
    have hrest := ih (fun x hx => h x (List.mem_cons_of_mem s hx))
    simp [updateOneSensor, if_neg hs, hrest]

/-- The per-slot frame relation of a sensor update for slot id `sid`:
the post-state either is the pre-state or differs from it exactly in the
two sensor fields, a slot with a different id is untouched, and all
lease-state fields are unchanged in every case. -/
def sensorFrame (sid : String) (occupied : Bool) (now : Int)
    (s s' : Slot) : Prop :=
  (s' = s ∨ s' = sensorSet occupied now s) ∧
  (s.slot_id ≠ sid → s' = s) ∧
  s'.slot_id = s.slot_id ∧ s'.available = s.available ∧
  s'.reserved_by = s.reserved_by ∧ s'.staff_email = s.staff_email ∧
  s'.department = s.department ∧
  s'.reservation_time = s.reservation_time ∧
  s'.last_updated = s.last_updated

theorem sensorFrame_refl (sid : String) (occupied : Bool) (now : Int)
    (s : Slot) : sensorFrame sid occupied now s s :=
  ⟨Or.inl rfl, fun _ => rfl, rfl, rfl, rfl, rfl, rfl, rfl, rfl⟩

theorem updateOneSensor_frame (sid : String) (occupied : Bool)
    (now : Int) : ∀ slots : List Slot,
    List.Forall₂ (sensorFrame sid occupied now) slots
      (updateOneSensor sid occupied now slots).1 := by
  intro slots
  induction slots with
  | nil => exact List.Forall₂.nil
  | cons s rest ih =>
    by_cases hid : s.slot_id = sid
    · simp only [updateOneSensor, if_pos hid]
      refine List.Forall₂.cons
        ⟨Or.inr rfl, fun hne => absurd hid hne, rfl, rfl, rfl, rfl, rfl,
         rfl, rfl⟩ ?_
      exact (List.forall₂_same).mpr
        (fun x _ => sensorFrame_refl sid occupied now x)
    · simp only [updateOneSensor, if_neg hid]
      exact List.Forall₂.cons (sensorFrame_refl sid occupied now s) ih

theorem updateOneSensor_mem (sid : String) (occupied : Bool)
    (now : Int) : ∀ slots : List Slot,
    ∀ x ∈ (updateOneSensor sid occupied now slots).1,
      x ∈ slots ∨ ∃ s₀ ∈ slots, x = sensorSet occupied now s₀ := by
  intro slots
  induction slots with
  | nil => intro x hx; simp [updateOneSensor] at hx
  | cons s rest ih =>
    intro x hx
    by_cases hid : s.slot_id = sid
    · simp only [updateOneSensor, if_pos hid, List.mem_cons] at hx
      rcases hx with hx | hx
      · exact Or.inr ⟨s, List.mem_cons_self s rest, hx⟩
      · exact Or.inl (List.mem_cons_of_mem s hx)
    · simp only [updateOneSensor, if_neg hid, List.mem_cons] at hx
      rcases hx with hx | hx
      · exact Or.inl (hx ▸ List.mem_cons_self s rest)
      · rcases ih x hx with h | ⟨s₀, hs₀, hset⟩
        · exact Or.inl (List.mem_cons_of_mem s h)
        · exact Or.inr ⟨s₀, List.mem_cons_of_mem s hs₀, hset⟩

theorem claim_C7_witness :
    ((reserve_slot demoUser 3 initSlots []).1.success = true) ∧
    ∃ d : BookingDoc,
      (reserve_slot demoUser 3 initSlots []).2.2 = [] ++ [d] ∧
      d.expires_at = d.reserved_at + LEASE_TTL_US ∧
      d.reserved_at = 3 ∧
      ∃ slot ∈ (reserve_slot demoUser 3 initSlots []).2.1,
        slot.slot_id = d.slot_id ∧
        slot.reservation_time = some d.reserved_at :=
  ⟨by decide, claim_C7 demoUser 3 initSlots [] (by decide)⟩

/-- C4 counterexample: a sensor update for the unknown slot id `S9`
against the initial pool is acknowledged with HTTP 200 and
`success: true` (merely `updated: false`), the store unchanged — it does
not fail with a `SlotNotFound` client error as the claim states. -/
theorem claim_C4_counterexample :
    (hardware_sensor (some "S9") true 0 initSlots).1.success = true ∧
    (hardware_sensor (some "S9") true 0 initSlots).1.httpStatus = 200 ∧
    (hardware_sensor (some "S9") true 0 initSlots).1.updated = false ∧
    (hardware_sensor (some "S9") true 0 initSlots).2 = initSlots := by
  decide

/-- C4 (amended): for every sensor-update call naming a non-empty
`slot_id` that exists on no slot in the store, the endpoint acknowledges
with HTTP 200 and `success: true`, reporting only `updated: false`
(`modified_count == 0`), and leaves the store unchanged; no
`SlotNotFound` error is produced. -/
theorem claim_C4 (sid : String) (occupied : Bool) (now : Int)
    (slots : List Slot) (hsid : sid ≠ "")
    (h : ∀ s ∈ slots, s.slot_id ≠ sid) :
    (hardware_sensor (some sid) occupied now slots).1.success = true ∧
    (hardware_sensor (some sid) occupied now slots).1.httpStatus = 200 ∧
    (hardware_sensor (some sid) occupied now slots).1.updated = false ∧
    (hardware_sensor (some sid) occupied now slots).2 = slots := by
  have hu := updateOneSensor_no_match sid occupied now slots h
  simp [hardware_sensor, if_neg hsid, hu]

theorem claim_C4_witness :
    (("S9" : String) ≠ "" ∧ (∀ s ∈ initSlots, s.slot_id ≠ "S9")) ∧
    (hardware_sensor (some "S9") false 5 initSlots).1.updated = false :=
  ⟨⟨by decide, by decide⟩,
   (claim_C4 "S9" false 5 initSlots (by decide) (by decide)).2.2.1⟩

/-- C6: a sensor update overwrites at most the `hardware_occupied` and
`last_sensor_update` fields of the slot whose id matches; every
lease-state field (`available`, `reserved_by`, `reservation_time`,
cached `staff_email`/`department`, `last_updated`) of that slot is
unchanged, and every slot with a different id is entirely unchanged. -/
theorem claim_C6 (sid : String) (occupied : Bool) (now : Int)
    (slots : List Slot) :
    List.Forall₂ (sensorFrame sid occupied now) slots
      (hardware_sensor (some sid) occupied now slots).2 := by
  by_cases hsid : sid = ""
  · simp only [hardware_sensor, if_pos hsid]
    exact (List.forall₂_same).mpr
      (fun x _ => sensorFrame_refl sid occupied now x)
  · simp only [hardware_sensor, if_neg hsid]
    exact updateOneSensor_frame sid occupied now slots

theorem claim_C6_witness :
    List.Forall₂ (sensorFrame "S1" true 5) initSlots
      (hardware_sensor (some "S1") true 5 initSlots).2 :=
  claim_C6 "S1" true 5 initSlots

/-! ### Helper lemmas for the slot invariant -/

theorem SlotInv_reserveSet (u : User) (now : Int) (s : Slot) :
    SlotInv (reserveSet u now s) := by
  simp [SlotInv, reserveSet]

theorem SlotInv_releasedSlot (s : Slot) : SlotInv (releasedSlot s) := by
  simp [SlotInv, releasedSlot]

theorem SlotInv_sensorSet (occupied : Bool) (now : Int) (s : Slot)
    (h : SlotInv s) : SlotInv (sensorSet occupied now s) := by
  simpa [SlotInv, sensorSet] using h

theorem reserve_slot_store (u : User) (now : Int) (slots : List Slot)
    (bookings : List BookingDoc) :
    (reserve_slot u now slots bookings).2.1 =
      (findOneAndUpdateAvailable u now slots).2 := by
  rcases hfind : findOneAndUpdateAvailable u now slots with ⟨res, slots'⟩
  cases res <;> simp [reserve_slot, hfind]

theorem procSlotStatus_store (users : List User) (now : Int) (s : Slot) :
    (procSlotStatus users now s).2.1 = s ∨
      (procSlotStatus users now s).2.1 = releasedSlot s := by
  rcases h : s.reservation_time with _ | t
  · left; simp [procSlotStatus, h]
  · by_cases hts : 0 < pyTotalSeconds (t + LEASE_TTL_US - now)
    · left; simp [procSlotStatus, h, if_pos hts]
    · right; simp [procSlotStatus, h, if_neg hts]

theorem procEsp32_store (now : Int) (s : Slot) :
    (procEsp32 now s).2.1 = s ∨ (procEsp32 now s).2.1 = releasedSlot s := by
  rcases h : s.reservation_time with _ | t
  · left; simp [procEsp32, h]
  · by_cases hts : 0 < pyTotalSeconds (t + LEASE_TTL_US - now)
    · left; simp [procEsp32, h, if_pos hts]
    · right; simp [procEsp32, h, if_neg hts]

theorem mem_sortBySlotId_iff (s : Slot) (slots : List Slot) :
    s ∈ sortBySlotId slots ↔ s ∈ slots :=
  (List.perm_insertionSort _ slots).mem_iff

theorem slots_status_store_mem (users : List User) (now : Int)
    (slots : List Slot) (x : Slot)
    (hx : x ∈ (slots_status users now slots).2) :
    ∃ s ∈ slots, x = (procSlotStatus users now s).2.1 := by
  simp only [slots_status, List.mem_map] at hx
  obtain ⟨s, hs, hxe⟩ := hx
  exact ⟨s, (mem_sortBySlotId_iff s slots).mp hs, hxe.symm⟩

theorem esp32_store_mem (now : Int) (slots : List Slot) (x : Slot)
    (hx : x ∈ (esp32_reserve_status now slots).2) :
    ∃ s ∈ slots, x = (procEsp32 now s).2.1 := by
  simp only [esp32_reserve_status, List.mem_map] at hx
  obtain ⟨s, hs, hxe⟩ := hx
  exact ⟨s, (mem_sortBySlotId_iff s slots).mp hs, hxe.symm⟩

theorem hardware_sensor_store_mem (sid : String) (occupied : Bool)
    (now : Int) (slots : List Slot) (x : Slot)
    (hx : x ∈ (hardware_sensor (some sid) occupied now slots).2) :
    x ∈ slots ∨ ∃ s₀ ∈ slots, x = sensorSet occupied now s₀ := by
  by_cases hsid : sid = ""
  · simp only [hardware_sensor, if_pos hsid] at hx
    exact Or.inl hx
  · simp only [hardware_sensor, if_neg hsid] at hx
    exact updateOneSensor_mem sid occupied now slots x hx

/-- C3: the invariant `available == false ↔ (reserved_by and
reservation_time both present)` holds on the initial pool and is
preserved by every slot mutation: allocation, the auto-release performed
by either status read, and a sensor update. -/
theorem claim_C3 (u : User) (users : List User) (sid : String)
    (occupied : Bool) (now now2 now3 now4 : Int) (slots : List Slot)
    (bookings : List BookingDoc) (x0 x1 x2 x3 x4 : Slot)
    (h : ∀ s ∈ slots, SlotInv s)
    (h0 : x0 ∈ initSlots)
    (h1 : x1 ∈ (reserve_slot u now slots bookings).2.1)
    (h2 : x2 ∈ (slots_status users now2 slots).2)
    (h3 : x3 ∈ (esp32_reserve_status now3 slots).2)
    (h4 : x4 ∈ (hardware_sensor (some sid) occupied now4 slots).2) :
    SlotInv x0 ∧ SlotInv x1 ∧ SlotInv x2 ∧ SlotInv x3 ∧ SlotInv x4 := by
  refine ⟨?_, ?_, ?_, ?_, ?_⟩
  · exact (by decide : ∀ s ∈ initSlots, SlotInv s) x0 h0
  · rw [reserve_slot_store] at h1
    rcases findOneAndUpdateAvailable_mem u now slots x1 h1 with
      hmem | ⟨s₀, _, hset⟩
    · exact h x1 hmem
    · exact hset ▸ SlotInv_reserveSet u now s₀
  · obtain ⟨s, hs, hxe⟩ := slots_status_store_mem users now2 slots x2 h2
    rcases procSlotStatus_store users now2 s with hcase | hcase
    · exact (hxe.trans hcase) ▸ h s hs
    · exact (hxe.trans hcase) ▸ SlotInv_releasedSlot s
  · obtain ⟨s, hs, hxe⟩ := esp32_store_mem now3 slots x3 h3
    rcases procEsp32_store now3 s with hcase | hcase
    · exact (hxe.trans hcase) ▸ h s hs
    · exact (hxe.trans hcase) ▸ SlotInv_releasedSlot s
  · rcases hardware_sensor_store_mem sid occupied now4 slots x4 h4 with
      hmem | ⟨s₀, hs₀, hset⟩
    · exact h x4 hmem
    · exact hset ▸ SlotInv_sensorSet occupied now4 s₀ (h s₀ hs₀)

theorem claim_C3_witness :
    (∀ s ∈ initSlots, SlotInv s) ∧
    (SlotInv (initSlots.get ⟨0, by decide⟩) ∧
     SlotInv (reserveSet demoUser 0 (initSlots.get ⟨0, by decide⟩)) ∧
     SlotInv (initSlots.get ⟨1, by decide⟩) ∧
     SlotInv (initSlots.get ⟨2, by decide⟩) ∧
     SlotInv (sensorSet true 0 (initSlots.get ⟨0, by decide⟩))) :=
  ⟨by decide,
   claim_C3 demoUser [] "S1" true 0 0 0 0 initSlots [] _ _ _ _ _
     (by decide) (by decide) (by decide) (by decide) (by decide)
     (by decide)⟩

/-! ### Lease-expiry evaluation -/

theorem leaseActive_iff (t now : Int) :
    leaseActive t now = true ↔ now ≤ t + 599000000 := by
  simp only [leaseActive, pyTotalSeconds, LEASE_TTL_US, decide_eq_true_eq]
  split <;> omega

theorem slots_status_entry_mem (users : List User) (now : Int)
    (slots : List Slot) (s : Slot) (hs : s ∈ slots) :
    (procSlotStatus users now s).1 ∈ (slots_status users now slots).1 := by
  simp only [slots_status, List.mem_map]
  exact ⟨s, (mem_sortBySlotId_iff s slots).mpr hs, rfl⟩

theorem slots_status_store_of_mem (users : List User) (now : Int)
    (slots : List Slot) (s : Slot) (hs : s ∈ slots) :
    (procSlotStatus users now s).2.1 ∈ (slots_status users now slots).2 := by
  simp only [slots_status, List.mem_map]
  exact ⟨s, (mem_sortBySlotId_iff s slots).mpr hs, rfl⟩

theorem esp32_entry_mem (now : Int) (slots : List Slot) (s : Slot)
    (hs : s ∈ slots) :
    (procEsp32 now s).1 ∈ (esp32_reserve_status now slots).1 := by
  simp only [esp32_reserve_status, List.mem_map]
  exact ⟨s, (mem_sortBySlotId_iff s slots).mpr hs, rfl⟩

/-- The slot `S1` right after `reserve_slot` claimed it at time 0 for
`demoUser` — a concrete reserved slot for witnesses. -/
def demoReservedAt0 : Slot := reserveSet demoUser 0 (initSlots.get ⟨0, by decide⟩)

/-- C1 counterexample: a lease started at T = 0 with the 10-minute TTL
is reported expired (status AVAILABLE, `active = false`) already at
query time 599.5 s — a time with T ≤ now < T + 10 min — on both read
paths, because the remaining time is truncated to whole seconds by
`int(...total_seconds())` before the strict `> 0` comparison. -/
theorem claim_C1_counterexample :
    ((0 : Int) ≤ 599500000 ∧ (599500000 : Int) < 0 + LEASE_TTL_US) ∧
    leaseActive 0 599500000 = false ∧
    (procSlotStatus [] 599500000 demoReservedAt0).1.status = "AVAILABLE" ∧
    (procEsp32 599500000 demoReservedAt0).1.status = "AVAILABLE" := by
  decide

/-- C1 (amended): for a lease started at T with TTL = 10 min, the
expiry evaluation used by both read paths reports the lease active
(status RESERVED) exactly for query times now ≤ T + 599 s, and expired
(status AVAILABLE) for every later time; in particular at the exact
boundary now − T = TTL the lease is expired, and so is the entire final
sub-second window (T + 599 s, T + 600 s), because the remaining time is
truncated to whole seconds before the strict `> 0` comparison. -/
theorem claim_C1 (t now : Int) (users : List User) (s : Slot)
    (hres : s.reservation_time = some t) :
    (leaseActive t now = true ↔ now ≤ t + 599000000) ∧
    leaseActive t (t + LEASE_TTL_US) = false ∧
    ((procSlotStatus users now s).1.status = "RESERVED" ↔
      leaseActive t now = true) ∧
    ((procSlotStatus users now s).1.status = "AVAILABLE" ↔
      leaseActive t now = false) ∧
    ((procEsp32 now s).1.status = "RESERVED" ↔ leaseActive t now = true) ∧
    ((procEsp32 now s).1.status = "AVAILABLE" ↔
      leaseActive t now = false) := by
  have hbound : leaseActive t (t + LEASE_TTL_US) = false := by
    have h0 : t + LEASE_TTL_US - (t + LEASE_TTL_US) = 0 := by ring
    unfold leaseActive
    rw [h0]
    decide
  by_cases hts : 0 < pyTotalSeconds (t + LEASE_TTL_US - now)
  · have ha : leaseActive t now = true := by simp [leaseActive, hts]
    refine ⟨leaseActive_iff t now, hbound, ?_, ?_, ?_, ?_⟩ <;>
      simp [procSlotStatus, procEsp32, hres, if_pos hts, ha]
  · have ha : leaseActive t now = false := by simp [leaseActive, hts]
    refine ⟨leaseActive_iff t now, hbound, ?_, ?_, ?_, ?_⟩ <;>
      simp [procSlotStatus, procEsp32, hres, if_neg hts, ha]

theorem claim_C1_witness :
    (demoReservedAt0.reservation_time = some 0) ∧
    (leaseActive 0 0 = true ↔ (0 : Int) ≤ 0 + 599000000) ∧
    leaseActive 0 (0 + LEASE_TTL_US) = false :=
  ⟨by decide,
   (claim_C1 0 0 [] demoReservedAt0 (by decide)).1,
   (claim_C1 0 0 [] demoReservedAt0 (by decide)).2.1⟩

/-- C8: the countdown rendering is `minutes = remaining // 60`,
`seconds = remaining % 60`, zero-padded `MM:SS`: 125 s renders as
`02:05` and 0 s as `00:00`; a remaining duration of 0 implies the lease
is not active; and the RESERVED branch of the status read publishes
exactly this decomposition of the remaining whole seconds. -/
theorem claim_C8 (t now : Int) :
    renderCountdown 125 = "02:05" ∧
    renderCountdown 0 = "00:00" ∧
    (remainingSeconds t now = 0 → leaseActive t now = false) ∧
    (∀ users : List User, ∀ s : Slot, s.reservation_time = some t →
      leaseActive t now = true →
      (procSlotStatus users now s).1.time_left_min =
        some (remainingSeconds t now / 60) ∧
      (procSlotStatus users now s).1.time_left_sec =
        some (remainingSeconds t now % 60) ∧
      (procSlotStatus users now s).1.countdown =
        some (renderCountdown (remainingSeconds t now))) := by
  refine ⟨by decide, by decide, ?_, ?_⟩
  · intro h
    simp only [remainingSeconds] at h
    simp only [leaseActive, decide_eq_false_iff_not]
    omega
  · intro users s hres hact
    have hts : 0 < pyTotalSeconds (t + LEASE_TTL_US - now) := by
      simpa [leaseActive] using hact
    refine ⟨?_, ?_, ?_⟩ <;>
      simp [procSlotStatus, hres, if_pos hts, remainingSeconds,
        renderCountdown]

theorem claim_C8_witness :
    (demoReservedAt0.reservation_time = some 0 ∧ leaseActive 0 0 = true) ∧
    (procSlotStatus [] 0 demoReservedAt0).1.countdown =
      some (renderCountdown (remainingSeconds 0 0)) :=
  ⟨⟨by decide, by decide⟩,
   ((claim_C8 0 0).2.2.2 [] demoReservedAt0 (by decide) (by decide)).2.2⟩

/-- C5: for a slot whose lease has expired, the first status query
reports AVAILABLE and issues the auto-release write; the slot then sits
released in the store, and a second status query at any later time again
reports AVAILABLE while performing no store mutation for that slot (the
per-slot write flag is false and the slot is returned unchanged). -/
theorem claim_C5 (users : List User) (now now2 : Int) (slots : List Slot)
    (s : Slot) (t : Int) (hs : s ∈ slots)
    (ht : s.reservation_time = some t)
    (hexp : leaseActive t now = false) :
    (procSlotStatus users now s).1.status = "AVAILABLE" ∧
    (procSlotStatus users now s).1 ∈ (slots_status users now slots).1 ∧
    (procSlotStatus users now s).2.1 = releasedSlot s ∧
    (procSlotStatus users now s).2.2 = true ∧
    releasedSlot s ∈ (slots_status users now slots).2 ∧
    (procSlotStatus users now2 (releasedSlot s)).1.status = "AVAILABLE" ∧
    (procSlotStatus users now2 (releasedSlot s)).2.1 = releasedSlot s ∧
    (procSlotStatus users now2 (releasedSlot s)).2.2 = false ∧
    (procSlotStatus users now2 (releasedSlot s)).1 ∈
      (slots_status users now2 ((slots_status users now slots).2)).1 := by
  have hts : ¬ 0 < pyTotalSeconds (t + LEASE_TTL_US - now) := by
    simpa [leaseActive] using hexp
  have hrel : (procSlotStatus users now s).2.1 = releasedSlot s := by
    simp [procSlotStatus, ht, if_neg hts]
  have hmem2 : releasedSlot s ∈ (slots_status users now slots).2 :=
    hrel ▸ slots_status_store_of_mem users now slots s hs
  refine ⟨?_, slots_status_entry_mem users now slots s hs, hrel, ?_,
          hmem2, ?_, ?_, ?_, ?_⟩
  · simp [procSlotStatus, ht, if_neg hts]
  · simp [procSlotStatus, ht, if_neg hts]
  · simp [procSlotStatus, releasedSlot]
  · simp [procSlotStatus, releasedSlot]
  · simp [procSlotStatus, releasedSlot]
  · exact slots_status_entry_mem users now2 _ (releasedSlot s) hmem2

theorem claim_C5_witness :
    (demoReservedAt0 ∈ [demoReservedAt0] ∧
     demoReservedAt0.reservation_time = some 0 ∧
     leaseActive 0 600000000 = false) ∧
    ((procSlotStatus [] 600000000 demoReservedAt0).1.status = "AVAILABLE" ∧
     (procSlotStatus [] 700000000
        (releasedSlot demoReservedAt0)).2.2 = false) :=
  ⟨⟨by decide, by decide, by decide⟩,
   (claim_C5 [] 600000000 700000000 [demoReservedAt0] demoReservedAt0 0
      (by decide) (by decide) (by decide)).1,
   (claim_C5 [] 600000000 700000000 [demoReservedAt0] demoReservedAt0 0
      (by decide) (by decide) (by decide)).2.2.2.2.2.2.2.1⟩

/-- C10: in the hardware signal feed, a slot whose lease is observed
expired during the read yields a response entry with status AVAILABLE
and led_color OFF that still carries `available = false`, because the
`available` field was copied from the slot document read before the
auto-release write (which sets the stored slot back to available). -/
theorem claim_C10 (now : Int) (slots : List Slot) (s : Slot) (t : Int)
    (hs : s ∈ slots) (ht : s.reservation_time = some t)
    (hav : s.available = false)
    (hexp : leaseActive t now = false) :
    (procEsp32 now s).1.status = "AVAILABLE" ∧
    (procEsp32 now s).1.led_color = "OFF" ∧
    (procEsp32 now s).1.available = false ∧
    (procEsp32 now s).1 ∈ (esp32_reserve_status now slots).1 ∧
    (procEsp32 now s).2.1 = releasedSlot s ∧
    (releasedSlot s).available = true := by
  have hts : ¬ 0 < pyTotalSeconds (t + LEASE_TTL_US - now) := by
    simpa [leaseActive] using hexp
  refine ⟨?_, ?_, ?_, esp32_entry_mem now slots s hs, ?_, ?_⟩
  · simp [procEsp32, ht, if_neg hts]
  · simp [procEsp32, ht, if_neg hts]
  · simp [procEsp32, ht, if_neg hts, hav]
  · simp [procEsp32, ht, if_neg hts]
  · simp [releasedSlot]

theorem claim_C10_witness :
    (demoReservedAt0 ∈ [demoReservedAt0] ∧
     demoReservedAt0.reservation_time = some 0 ∧
     demoReservedAt0.available = false ∧
     leaseActive 0 600000000 = false) ∧
    ((procEsp32 600000000 demoReservedAt0).1.status = "AVAILABLE" ∧
     (procEsp32 600000000 demoReservedAt0).1.available = false) :=
  ⟨⟨by decide, by decide, by decide, by decide⟩,
   (claim_C10 600000000 [demoReservedAt0] demoReservedAt0 0 (by decide)
      (by decide) (by decide) (by decide)).1,
   (claim_C10 600000000 [demoReservedAt0] demoReservedAt0 0 (by decide)
      (by decide) (by decide) (by decide)).2.2.1⟩

/-- C9: `my_bookings` returns at most 20 entries, sorted newest first by
`reserved_at`; every returned entry is the `_id`-free projection of a
stored booking of the requested staff id; the projection is insensitive
to the internal identifier; and the bookings store is not mutated. -/
theorem claim_C9 (staffId : String) (bookings : List BookingDoc) :
    (my_bookings staffId bookings).1.length ≤ 20 ∧
    List.Pairwise (fun a b : Booking => b.reserved_at ≤ a.reserved_at)
      (my_bookings staffId bookings).1 ∧
    (∀ v ∈ (my_bookings staffId bookings).1,
      ∃ b ∈ bookings, b.staff_id = staffId ∧ v = bookingView b) ∧
    (∀ (b : BookingDoc) (n : Nat),
      bookingView { b with _id := n } = bookingView b) ∧
    (my_bookings staffId bookings).2 = bookings := by
  haveI hTotal :
      IsTotal BookingDoc (fun a b => b.reserved_at ≤ a.reserved_at) :=
    ⟨fun a b => le_total b.reserved_at a.reserved_at⟩
  haveI hTrans :
      IsTrans BookingDoc (fun a b => b.reserved_at ≤ a.reserved_at) :=
    ⟨fun _ _ _ hab hbc => le_trans hbc hab⟩
  refine ⟨?_, ?_, ?_, fun b n => rfl, rfl⟩
  · simp only [my_bookings, List.length_map]
    exact List.length_take_le 20 _
  · have hsorted :
        List.Pairwise (fun a b : BookingDoc => b.reserved_at ≤ a.reserved_at)
          (List.insertionSort (fun a b => b.reserved_at ≤ a.reserved_at)
            (bookings.filter (fun b => b.staff_id = staffId))) :=
      List.sorted_insertionSort _ _
    have htake := List.Pairwise.sublist
      (List.take_sublist 20
        (List.insertionSort (fun a b => b.reserved_at ≤ a.reserved_at)
          (bookings.filter (fun b => b.staff_id = staffId)))) hsorted
    simp only [my_bookings]
    exact (List.pairwise_map).mpr htake
  · intro v hv
    simp only [my_bookings, List.mem_map] at hv
    obtain ⟨b, hb, hbv⟩ := hv
    have hb' := List.take_subset 20 _ hb
    rw [List.mem_insertionSort] at hb'
    rw [List.mem_filter] at hb'
    exact ⟨b, hb'.1, of_decide_eq_true hb'.2, hbv.symm⟩

theorem claim_C9_witness :
    (my_bookings "cse101"
      [{ _id := 0, staff_id := "cse101", staff_email := some "a@b.c",
         department := some "CSE", slot_id := "S1", reserved_at := 3,
         expires_at := 600000003 }]).1.length ≤ 20 :=
  (claim_C9 "cse101"
    [{ _id := 0, staff_id := "cse101", staff_email := some "a@b.c",
       department := some "CSE", slot_id := "S1", reserved_at := 3,
       expires_at := 600000003 }]).1

end SmartParking
